import Mathlib

/-!
Verification of the Gaucho Insights reconciliation pipeline
(`main_app.py::load_and_clean_data` and the helper modules `queries.py`
and `pstat_logic.py`) against its natural-language specification.

Strings are embedded as lists of Unicode code points (`List Nat`), which
is faithful to Python's string model; `cp` converts a Lean string literal
to that representation.  Fallible Python operations (expressions that can
raise, such as an out-of-range list index) are embedded as `Option`
results, with `none` standing for a raised exception.
-/

namespace GauchoInsights

/-- Code points of a string literal (Python strings are sequences of code
points). -/
def cp (s : String) : List Nat := s.data.map Char.toNat

/-- Python whitespace test on a code point, covering the characters that
`str.split()` and `str.strip()` treat as separators (space, tab, LF, VT,
FF, CR).  The inputs handled by the pipeline are ASCII CSV fields. -/
def isWs (n : Nat) : Bool :=
  decide (n = 32 ∨ n = 9 ∨ n = 10 ∨ n = 11 ∨ n = 12 ∨ n = 13)

/-- Python `str.upper()` on a single ASCII code point (the CSV fields the
pipeline reads are ASCII). -/
def upperCp (n : Nat) : Nat := if 97 ≤ n ∧ n ≤ 122 then n - 32 else n

/-- Python `str.upper()` over a whole string. -/
def pyUpper (s : List Nat) : List Nat := s.map upperCp

/-- Python `str.strip()`: remove leading and trailing whitespace. -/
def pyStrip (s : List Nat) : List Nat :=
  List.rdropWhile isWs (s.dropWhile isWs)

/-- Normalization applied to the `instructor`, `quarter`, `course` and
`dept` columns in `load_and_clean_data`
(`df[col].astype(str).str.upper().str.strip()`, main_app.py lines 70-72):
upper-case, then trim. -/
def normalize (s : List Nat) : List Nat := pyStrip (pyUpper s)

/-- ASCII digit test on a code point (`\d` of `re` on ASCII input). -/
def isDigitCp (n : Nat) : Bool := decide (48 ≤ n ∧ n ≤ 57)

/-- Decimal value of a run of digit code points (Python `int` of the
matched group). -/
def digitsVal (ds : List Nat) : Nat := ds.foldl (fun a c => a * 10 + (c - 48)) 0

/-- main_app.py `get_course_num` (lines 36-38):
`re.search(r'(\d+)', str(course_str))` finds the first maximal run of
digits; `int` of it, or `None` when the label has no digit. -/
def get_course_num (s : List Nat) : Option Nat :=
  let ds := (s.dropWhile (fun c => !(isDigitCp c))).takeWhile isDigitCp
  if ds.isEmpty then none else some (digitsVal ds)

/-- main_app.py lines 41-42: a course row is kept in the catalog view iff
its extracted code exists (`notna`), is at most 198, and is not 99. -/
def keepCourse (s : List Nat) : Bool :=
  match get_course_num s with
  | none => false
  | some n => decide (n ≤ 198) && decide (n ≠ 99)

/-- queries.py `GET_EASIEST_LOWER_DIV` WHERE clause (line 17):
`course_num < 99`. -/
def lowerDivHallOfFame (n : Nat) : Bool := decide (n < 99)

/-- queries.py `GET_EASIEST_UPPER_DIV` WHERE clause (line 32):
`course_num >= 100 AND course_num < 198`. -/
def upperDivHallOfFame (n : Nat) : Bool := decide (100 ≤ n ∧ n < 198)

/-- Python `str.split()` with no separator: split on runs of whitespace,
dropping empty pieces.  `acc` accumulates the current word reversed. -/
def wordsAux : List Nat → List Nat → List (List Nat)
  | [], acc => if acc.isEmpty then [] else [acc.reverse]
  | c :: cs, acc =>
    if isWs c then
      if acc.isEmpty then wordsAux cs [] else acc.reverse :: wordsAux cs []
    else wordsAux cs (c :: acc)

/-- Python `str.split()`. -/
def pySplit (s : List Nat) : List (List Nat) := wordsAux s []

/-- The sentinel key produced for a missing (NaN) instructor name. -/
def UNKNOWN_KEY : List Nat := cp "UNKNOWN"

/-- main_app.py `get_registrar_key` (lines 44-47).  The input is the raw
`instructor` cell: `none` models a NaN cell, `some s` a string cell.  The
result `none` models the `IndexError` raised by `parts[0]` when
`str(name).upper().split()` is empty. -/
def get_registrar_key (name : Option (List Nat)) : Option (List Nat) :=
  match name with
  | none => some UNKNOWN_KEY
  | some s =>
    match pySplit (pyUpper s) with
    | [] => none
    | p0 :: rest =>
      some (p0 ++ (match rest with | [] => [] | p1 :: _ => p1.take 1))

/-- main_app.py `get_rmp_key` (lines 49-52): last token plus first char of
the first token (when there are at least two tokens).  `none` again models
the `IndexError` on an empty token list. -/
def get_rmp_key (name : Option (List Nat)) : Option (List Nat) :=
  match name with
  | none => some UNKNOWN_KEY
  | some s =>
    match pySplit (pyUpper s) with
    | [] => none
    | p0 :: rest =>
      some (rest.getLastD p0 ++ (match rest with | [] => [] | _ :: _ => p0.take 1))

/-- One row of the grade table at the aggregation/sort stage of
`load_and_clean_data` (the columns named in `group_cols` and `agg_dict`,
main_app.py lines 76-82).  GPA and counts are embedded as exact rationals
(the CSV holds small decimal numerals).  The same shape serves for the
output of the groupby, whose rows carry the group key columns plus the
aggregated measures. -/
structure GradeRow where
  instructor : List Nat
  join_key : List Nat
  quarter : List Nat
  year : Int
  course : List Nat
  dept : List Nat
  avggpa : ℚ
  a : ℚ
  b : ℚ
  c : ℚ
  d : ℚ
  f : ℚ
deriving DecidableEq, Repr

/-- The tuple of grouping columns of main_app.py line 76:
`group_cols = ['instructor', 'join_key', 'quarter', 'year', 'course', 'dept']`. -/
structure GroupKey where
  instructor : List Nat
  join_key : List Nat
  quarter : List Nat
  year : Int
  course : List Nat
  dept : List Nat
deriving DecidableEq, Repr

/-- The grouping key of a grade row. -/
def groupKey (r : GradeRow) : GroupKey :=
  ⟨r.instructor, r.join_key, r.quarter, r.year, r.course, r.dept⟩

/-- Arithmetic mean of a list of rationals (pandas `'mean'`). -/
def qmean (l : List ℚ) : ℚ := l.sum / l.length

/-- The aggregated row for one group key: pandas
`groupby(group_cols).agg({gpa: 'mean', a: 'sum', ..., f: 'sum'})`
restricted to the rows whose key columns equal `k`
(main_app.py lines 77-82). -/
def aggRowFor (rows : List GradeRow) (k : GroupKey) : GradeRow :=
  let ms := rows.filter (fun r => decide (groupKey r = k))
  { instructor := k.instructor, join_key := k.join_key, quarter := k.quarter,
    year := k.year, course := k.course, dept := k.dept,
    avggpa := qmean (ms.map GradeRow.avggpa),
    a := (ms.map GradeRow.a).sum,
    b := (ms.map GradeRow.b).sum,
    c := (ms.map GradeRow.c).sum,
    d := (ms.map GradeRow.d).sum,
    f := (ms.map GradeRow.f).sum }

/-- The distinct group keys occurring in the input. -/
def groupKeys (rows : List GradeRow) : List GroupKey :=
  (rows.map groupKey).dedup

/-- main_app.py line 82: `df.groupby(group_cols).agg(agg_dict).reset_index()`
— one output row per distinct group key. -/
def aggregateSections (rows : List GradeRow) : List GradeRow :=
  (groupKeys rows).map (aggRowFor rows)

/-- main_app.py lines 83-84: `q_map = {'FALL': 4, 'SUMMER': 3, 'SPRING': 2,
'WINTER': 1}; df['quarter'].map(q_map).fillna(0)`. -/
def q_score (q : List Nat) : Nat :=
  if q = cp "FALL" then 4
  else if q = cp "SUMMER" then 3
  else if q = cp "SPRING" then 2
  else if q = cp "WINTER" then 1
  else 0

/-- The descending sort order of main_app.py line 85:
`df.sort_values(by=['year', 'q_score'], ascending=False)` — row `a` may
come before row `b` iff `(a.year, q_score a)` is lexicographically at
least `(b.year, q_score b)`. -/
def sortKeyGE (a b : GradeRow) : Prop :=
  b.year < a.year ∨ (b.year = a.year ∧ q_score b.quarter ≤ q_score a.quarter)

instance : DecidableRel sortKeyGE := fun a b => by
  unfold sortKeyGE; infer_instance

instance : IsTotal GradeRow sortKeyGE := by
  constructor
  intro a b
  rcases lt_trichotomy a.year b.year with h | h | h
  · exact Or.inr (Or.inl h)
  · rcases le_total (q_score b.quarter) (q_score a.quarter) with hq | hq
    · exact Or.inl (Or.inr ⟨h.symm, hq⟩)
    · exact Or.inr (Or.inr ⟨h, hq⟩)
  · exact Or.inl (Or.inl h)

instance : IsTrans GradeRow sortKeyGE := by
  constructor
  intro a b c hab hbc
  rcases hab with h1 | ⟨h1, h1q⟩ <;> rcases hbc with h2 | ⟨h2, h2q⟩
  · exact Or.inl (h2.trans h1)
  · exact Or.inl (h2 ▸ h1)
  · exact Or.inl (h1 ▸ h2)
  · exact Or.inr ⟨h2.trans h1, h2q.trans h1q⟩

/-- main_app.py line 85, modelled as a stable sort by the descending
`(year, q_score)` key. -/
def sortRows (l : List GradeRow) : List GradeRow :=
  List.insertionSort sortKeyGE l

/-- One row of the rating table after the renames and the key computation
of main_app.py lines 56-67; `instructor_rmp` is the raw name cell
(`none` = NaN) and `rmp_join_key` the column built from it by
`get_rmp_key`. -/
structure RmpRow where
  instructor_rmp : Option (List Nat)
  rmp_rating : ℚ
  rmp_join_key : List Nat
deriving DecidableEq, Repr

/-- One row of the merged table: the grade columns plus the attached
rating columns (`none` when the left join found no match). -/
structure MergedRow where
  grade : GradeRow
  rmp : Option RmpRow
deriving DecidableEq, Repr

/-- main_app.py line 68: `pd.merge(df, rmp_df, left_on='join_key',
right_on='rmp_join_key', how='left')` — every grade row is paired with
every rating row carrying an equal key, in order, or with an absent
rating when no key matches. -/
def mergeLeft (g : List GradeRow) (r : List RmpRow) : List MergedRow :=
  g.flatMap (fun gr =>
    let ms := r.filter (fun rr => decide (gr.join_key = rr.rmp_join_key))
    if ms.isEmpty then [⟨gr, none⟩] else ms.map (fun rr => ⟨gr, some rr⟩))

/-- One raw row of the registrar CSV as read by pstat_logic.py. -/
structure PRow where
  dept : List Nat
  course : List Nat
  avgGPA : ℚ
  nLetterStudents : Int
deriving DecidableEq, Repr

/-- pstat_logic.py `get_num` (lines 9-11): first run of digits, or 0 when
there is none. -/
def get_num (s : List Nat) : Nat :=
  match get_course_num s with
  | some n => n
  | none => 0

/-- pstat_logic.py `process_pstat` (lines 4-14): keep PSTAT rows with
`avgGPA > 0` and `nLetterStudents > 0`, then keep `course_num < 199`. -/
def process_pstat (df : List PRow) : List PRow :=
  let pstat_df := df.filter (fun r => decide (r.dept = cp "PSTAT"))
  let pstat_df2 := pstat_df.filter
    (fun r => decide (0 < r.avgGPA) && decide (0 < r.nLetterStudents))
  pstat_df2.filter (fun r => decide (get_num r.course < 199))

/-- A grade record whose letter counts are all zero (the pass/no-pass
shape singled out by the spec). -/
def allZeroCounts (r : GradeRow) : Bool :=
  decide (r.a = 0 ∧ r.b = 0 ∧ r.c = 0 ∧ r.d = 0 ∧ r.f = 0)

/-! Helper lemmas about the text normalizer. -/

theorem upperCp_upperCp (n : Nat) : upperCp (upperCp n) = upperCp n := by
  simp only [upperCp]
  split_ifs <;> omega

theorem isWs_upperCp (n : Nat) : isWs (upperCp n) = isWs n := by
  simp only [isWs, upperCp]
  split_ifs with h
  · simp only [decide_eq_decide]
    omega
  · rfl

theorem pyUpper_pyUpper (s : List Nat) : pyUpper (pyUpper s) = pyUpper s := by
  simp only [pyUpper, List.map_map]
  exact List.map_congr_left fun a _ => upperCp_upperCp a

theorem dropWhile_isWs_map (s : List Nat) :
    (s.map upperCp).dropWhile isWs = (s.dropWhile isWs).map upperCp := by
  induction s with
  | nil => rfl
  | cons c cs ih =>
    simp only [List.map_cons, List.dropWhile_cons, isWs_upperCp]
    split_ifs <;> simp [ih]

theorem rdropWhile_isWs_map (s : List Nat) :
    List.rdropWhile isWs (s.map upperCp) = (List.rdropWhile isWs s).map upperCp := by
  simp only [List.rdropWhile, ← List.map_reverse, dropWhile_isWs_map]

theorem pyStrip_pyUpper_comm (s : List Nat) :
    pyStrip (pyUpper s) = pyUpper (pyStrip s) := by
  simp only [pyStrip, pyUpper, dropWhile_isWs_map, rdropWhile_isWs_map]

theorem pyStrip_pyStrip (s : List Nat) : pyStrip (pyStrip s) = pyStrip s := by
  simp only [pyStrip]
  have h1 : (List.rdropWhile isWs (s.dropWhile isWs)).dropWhile isWs
      = List.rdropWhile isWs (s.dropWhile isWs) := by
    rw [List.dropWhile_eq_self_iff]
    intro hl
    have hpre := List.rdropWhile_prefix isWs (s.dropWhile isWs)
    have hlen : 0 < (s.dropWhile isWs).length := lt_of_lt_of_le hl hpre.length_le
    have hnot := List.dropWhile_get_zero_not isWs s hlen
    have hget := hpre.getElem (by simpa using hl)
    simp only [List.get_eq_getElem] at hnot ⊢
    rw [← hget] at hnot
    exact hnot
  rw [h1, List.rdropWhile_idempotent]

/-! Helper lemmas about splitting, merging, aggregation and sorting. -/

theorem wordsAux_ne_nil : ∀ (s acc : List Nat),
    ((∃ c ∈ s, isWs c = false) ∨ acc ≠ []) → wordsAux s acc ≠ [] := by
  intro s
  induction s with
  | nil =>
    intro acc h
    rcases h with ⟨c, hc, _⟩ | h
    · exact absurd hc (List.not_mem_nil c)
    · simp only [wordsAux]
      rw [if_neg (by simpa [List.isEmpty_iff] using h)]
      simp
  | cons c cs ih =>
    intro acc h
    simp only [wordsAux]
    cases hw : isWs c with
    | true =>
      simp only [hw, if_true]
      by_cases ha : acc.isEmpty
      · rw [if_pos ha]
        apply ih
        left
        rcases h with ⟨x, hx, hxw⟩ | hacc
        · rcases List.mem_cons.mp hx with rfl | hx
          · rw [hw] at hxw; cases hxw
          · exact ⟨x, hx, hxw⟩
        · rw [List.isEmpty_iff] at ha
          exact absurd ha hacc
      · rw [if_neg ha]
        simp
    | false =>
      rw [if_neg (by simp)]
      exact ih _ (Or.inr (by simp))

theorem pySplit_ne_nil (s : List Nat) (h : ∃ c ∈ s, isWs c = false) :
    pySplit s ≠ [] :=
  wordsAux_ne_nil s [] (Or.inl h)

theorem filter_key_length_le (r : List RmpRow) (k : List Nat)
    (h : (r.map RmpRow.rmp_join_key).Nodup) :
    (r.filter (fun rr => decide (k = rr.rmp_join_key))).length ≤ 1 := by
  induction r with
  | nil => simp
  | cons x xs ih =>
    simp only [List.map_cons, List.nodup_cons] at h
    simp only [List.filter_cons]
    by_cases hk : k = x.rmp_join_key
    · have hnil : xs.filter (fun rr => decide (k = rr.rmp_join_key)) = [] := by
        rw [List.filter_eq_nil_iff]
        intro a ha hdec
        rw [decide_eq_true_eq] at hdec
        exact h.1 (List.mem_map.mpr ⟨a, ha, by rw [← hdec, ← hk]⟩)
      rw [if_pos (by simpa using hk), hnil]
      simp
    · simp only [decide_eq_true_eq, hk, ite_false]
      exact ih h.2

theorem groupKey_aggRowFor (rows : List GradeRow) (k : GroupKey) :
    groupKey (aggRowFor rows k) = k := rfl

theorem mem_aggregateSections (rows : List GradeRow) (g : GradeRow)
    (hg : g ∈ aggregateSections rows) :
    g.avggpa = qmean ((rows.filter fun r => decide (groupKey r = groupKey g)).map GradeRow.avggpa)
    ∧ g.a = ((rows.filter fun r => decide (groupKey r = groupKey g)).map GradeRow.a).sum
    ∧ g.b = ((rows.filter fun r => decide (groupKey r = groupKey g)).map GradeRow.b).sum
    ∧ g.c = ((rows.filter fun r => decide (groupKey r = groupKey g)).map GradeRow.c).sum
    ∧ g.d = ((rows.filter fun r => decide (groupKey r = groupKey g)).map GradeRow.d).sum
    ∧ g.f = ((rows.filter fun r => decide (groupKey r = groupKey g)).map GradeRow.f).sum := by
  rcases List.mem_map.mp hg with ⟨k, hk, rfl⟩
  rw [groupKey_aggRowFor]
  exact ⟨rfl, rfl, rfl, rfl, rfl, rfl⟩

theorem sortRows_sorted (l : List GradeRow) : (sortRows l).Sorted sortKeyGE :=
  List.sorted_insertionSort sortKeyGE l

/-! Concrete rows used in the tests and counterexamples below. -/

/-- A concrete grade row at the aggregation stage, with the key columns of
the running example of the spec and explicit quarter, year, GPA and A/B
counts (C, D, F counts zero). -/
def mkRow (q : String) (yr : Int) (g na nb : ℚ) : GradeRow :=
  { instructor := cp "SOLIS J", join_key := cp "SOLISJ", quarter := cp q,
    year := yr, course := cp "PSTAT 120A", dept := cp "PSTAT",
    avggpa := g, a := na, b := nb, c := 0, d := 0, f := 0 }

/-! Claim C1 — course-level classification boundary. -/

/-- C1, counterexample: the claim states that a course code of 99 is kept
(Lower Division) and that a code of 198 is excluded.  The filter of
main_app.py line 42 (`course_num_val <= 198` and `course_num_val != 99`)
does the opposite on both boundaries: the label "ECON 99" is dropped and
the label "PSTAT 198" is kept. -/
theorem C1_counterexample :
    get_course_num (cp "ECON 99") = some 99 ∧ keepCourse (cp "ECON 99") = false
    ∧ get_course_num (cp "PSTAT 198") = some 198
    ∧ keepCourse (cp "PSTAT 198") = true := by
  decide

/-- C1, amended: a row is kept in the catalog view iff its extracted code
exists, is at most 198, and is not 99.  Hence: code 99 is excluded (it is
also below the lower-division query cut, whose WHERE clause is
`course_num < 99`); code 100 is kept and counts as upper division in the
queries; code 198 is kept; codes 199 and above are excluded; a label with
no digits is excluded. -/
theorem C1_amended :
    (∀ s n, get_course_num s = some n → (keepCourse s = true ↔ n ≤ 198 ∧ n ≠ 99))
    ∧ keepCourse (cp "ECON 99") = false ∧ lowerDivHallOfFame 99 = false
    ∧ keepCourse (cp "PSTAT 100") = true ∧ upperDivHallOfFame 100 = true
    ∧ keepCourse (cp "PSTAT 198") = true
    ∧ keepCourse (cp "PSTAT 199") = false
    ∧ keepCourse (cp "SEMINAR") = false := by
  refine ⟨?_, by decide, by decide, by decide, by decide, by decide, by decide, by decide⟩
  intro s n hn
  simp [keepCourse, hn]

/-- C1, witness: the amended classification rule evaluated on the concrete
label "PSTAT 120A". -/
theorem C1_amended_witness :
    get_course_num (cp "PSTAT 120A") = some 120
    ∧ (keepCourse (cp "PSTAT 120A") = true ↔ 120 ≤ 198 ∧ 120 ≠ 99) :=
  ⟨by decide, C1_amended.1 (cp "PSTAT 120A") 120 (by decide)⟩

/-! Claim C2 — join cardinality of the record-linking step. -/

/-- A grade row for the join-cardinality tests. -/
def c2grade : GradeRow := mkRow "FALL" 2024 3 10 5

/-- A rating row whose name "JORGE SOLIS" keys to "SOLISJ". -/
def c2rmp1 : RmpRow :=
  { instructor_rmp := some (cp "JORGE SOLIS"), rmp_rating := 4, rmp_join_key := cp "SOLISJ" }

/-- A distinct rating row whose name "JUAN SOLIS" also keys to "SOLISJ". -/
def c2rmp2 : RmpRow :=
  { instructor_rmp := some (cp "JUAN SOLIS"), rmp_rating := 2, rmp_join_key := cp "SOLISJ" }

/-- C2, counterexample: the code never deduplicates the rating table (no
per-key highest-rating selection exists in main_app.py lines 56-68), and
two distinct rating names can share one key, so the left merge can
duplicate grade rows: with rating rows for "JORGE SOLIS" and "JUAN SOLIS"
(both keyed "SOLISJ"), one matching grade row yields two output rows. -/
theorem C2_counterexample :
    get_rmp_key (some (cp "JORGE SOLIS")) = some (cp "SOLISJ")
    ∧ get_rmp_key (some (cp "JUAN SOLIS")) = some (cp "SOLISJ")
    ∧ (mergeLeft [c2grade] [c2rmp1, c2rmp2]).length = 2
    ∧ [c2grade].length = 1 := by
  decide

/-- C2, amended: the left join preserves the grade-row count exactly when
the rating table carries pairwise-distinct join keys; no grade row is ever
dropped, and with duplicate-free rating keys none is duplicated. -/
theorem C2_amended (g : List GradeRow) (r : List RmpRow)
    (h : (r.map RmpRow.rmp_join_key).Nodup) :
    (mergeLeft g r).length = g.length := by
  induction g with
  | nil => rfl
  | cons gr gs ih =>
    have hle := filter_key_length_le r gr.join_key h
    have h1 : (if (r.filter (fun rr => decide (gr.join_key = rr.rmp_join_key))).isEmpty
        then [(⟨gr, none⟩ : MergedRow)]
        else (r.filter (fun rr => decide (gr.join_key = rr.rmp_join_key))).map
          (fun rr => ⟨gr, some rr⟩)).length = 1 := by
      by_cases he : (r.filter (fun rr => decide (gr.join_key = rr.rmp_join_key))).isEmpty
      · simp [he]
      · rw [if_neg he, List.length_map]
        have hne : r.filter (fun rr => decide (gr.join_key = rr.rmp_join_key)) ≠ [] := by
          simpa [List.isEmpty_iff] using he
        have hpos := List.length_pos.mpr hne
        omega
    simp only [mergeLeft, List.flatMap_cons, List.length_append]
    simp only [mergeLeft] at ih
    rw [ih, h1, List.length_cons]
    omega

/-- C2, witness: the amended join-cardinality law on a concrete
one-row-per-side instance with duplicate-free rating keys. -/
theorem C2_amended_witness :
    (([c2rmp1] : List RmpRow).map RmpRow.rmp_join_key).Nodup
    ∧ (mergeLeft [c2grade] [c2rmp1]).length = ([c2grade] : List GradeRow).length :=
  ⟨by decide, C2_amended [c2grade] [c2rmp1] (by decide)⟩

/-! Claim C3 — ordering of unresolved term keys. -/

/-- A row whose quarter resolves ("FALL", rank 4) in an older year. -/
def c3resolved : GradeRow := mkRow "FALL" 2020 3 1 0

/-- A row whose quarter does not resolve ("???", rank 0) in a newer year. -/
def c3unresolved : GradeRow := mkRow "???" 2024 3 1 0

/-- C3, counterexample: the sort of main_app.py line 85 orders by year
first, so a row with an unrecognized quarter in a newer year sorts before
a fully resolved row of an older year — the claimed
"resolved strictly before unresolved" guarantee fails.  (The code also
never derives a year from the term text: `year` is its own column, so no
year-0 sentinel for unparseable terms exists.) -/
theorem C3_counterexample :
    q_score c3resolved.quarter = 4
    ∧ q_score c3unresolved.quarter = 0
    ∧ sortRows [c3resolved, c3unresolved] = [c3unresolved, c3resolved] := by
  decide

/-- C3, amended: an unrecognized quarter maps to the sentinel rank 0 and
sorts after every recognized quarter only within the same year: whenever a
row precedes another row of equal year in the sorted output, its quarter
rank is at least the other's, so a rank-0 (unresolved) row never precedes
a resolved row of the same year. -/
theorem C3_amended (l : List GradeRow) :
    (sortRows l).Pairwise
      (fun a b => a.year = b.year → q_score b.quarter ≤ q_score a.quarter) := by
  refine (sortRows_sorted l).imp ?_
  intro a b hab hy
  rcases hab with h | ⟨_, hq⟩
  · rw [hy] at h
    exact absurd h (lt_irrefl _)
  · exact hq

/-- C3, witness: the amended within-year ordering on a concrete list. -/
theorem C3_amended_witness :
    (sortRows [c3resolved, c3unresolved]).Pairwise
      (fun a b => a.year = b.year → q_score b.quarter ≤ q_score a.quarter) :=
  C3_amended [c3resolved, c3unresolved]

/-! Claim C4 — final output ordering. -/

/-- A Fall 2024 row with the lower GPA. -/
def c4low : GradeRow := mkRow "FALL" 2024 2 1 0

/-- A Fall 2024 row with the higher GPA. -/
def c4high : GradeRow := mkRow "FALL" 2024 3 1 0

/-- C4, counterexample: `sort_values(by=['year', 'q_score'])` consults no
GPA column, so two rows of the same term stay in input order even when the
first carries the smaller avgGpa — the claimed secondary
"avgGpa descending" ordering fails. -/
theorem C4_counterexample :
    sortRows [c4low, c4high] = [c4low, c4high]
    ∧ c4low.year = c4high.year
    ∧ q_score c4low.quarter = q_score c4high.quarter
    ∧ ¬(c4high.avggpa ≤ c4low.avggpa) := by
  decide

/-- C4, amended: the orchestrator returns the table sorted by year
descending and then by quarter rank descending only; every pair of
adjacent output rows satisfies the descending (year, quarter-rank)
comparison, and avgGpa is not a sort key. -/
theorem C4_amended (l : List GradeRow) :
    (sortRows l).Chain' sortKeyGE :=
  (sortRows_sorted l).chain'

/-- C4, witness: the amended adjacency ordering on a concrete list. -/
theorem C4_amended_witness :
    (sortRows [c4low, c3resolved]).Chain' sortKeyGE :=
  C4_amended [c4low, c3resolved]

/-! Claim C5 — pass/no-pass neutrality of the GPA aggregate. -/

/-- A letter-graded section: GPA 4, ten A grades. -/
def c5letter : GradeRow := mkRow "FALL" 2024 4 10 0

/-- A pass/no-pass section: all letter counts zero, recorded GPA 0. -/
def c5pnp : GradeRow := mkRow "FALL" 2024 0 0 0

/-- C5, counterexample: the groupby of main_app.py lines 76-82 averages
the GPA over every member row, so an all-zero-count pass/no-pass row with
recorded GPA 0 drags the group mean from 4 down to 2 — it does distort the
aggregate, contrary to the claim. -/
theorem C5_counterexample :
    allZeroCounts c5pnp = true
    ∧ allZeroCounts c5letter = false
    ∧ (aggregateSections [c5letter, c5pnp]).map GradeRow.avggpa = [2]
    ∧ qmean (([c5letter, c5pnp].filter (fun r => !(allZeroCounts r))).map GradeRow.avggpa) = 4
    ∧ (2 : ℚ) ≠ 4 := by
  refine ⟨by decide, by decide, ?_, ?_, by norm_num⟩
  · norm_num [aggregateSections, groupKeys, aggRowFor, groupKey, qmean, mkRow,
      c5letter, c5pnp, List.dedup, List.pwFilter, GradeRow.mk.injEq, GroupKey.mk.injEq]
  · norm_num [qmean, c5letter, c5pnp, mkRow, allZeroCounts, List.filter]

/-- C5, amended: the main pipeline's aggregation includes every member row
in the mean, all-zero-count ones included; pass/no-pass neutrality holds
only in the PSTAT analysis path, whose `process_pstat` removes every row
with a non-positive avgGPA or non-positive letter-student count (the
"P/NP ghost zeros") before any aggregation: every retained row has a
positive avgGPA, a positive letter-student count, department PSTAT and a
course number below 199. -/
theorem C5_amended (df : List PRow) (r : PRow) (hr : r ∈ process_pstat df) :
    0 < r.avgGPA ∧ 0 < r.nLetterStudents
    ∧ r.dept = cp "PSTAT" ∧ get_num r.course < 199 := by
  simp only [process_pstat, List.mem_filter, Bool.and_eq_true, decide_eq_true_eq] at hr
  obtain ⟨⟨⟨_, hdept⟩, hgpa, hn⟩, hnum⟩ := hr
  exact ⟨hgpa, hn, hdept, hnum⟩

/-- A raw PSTAT row that survives all three `process_pstat` filters. -/
def c5prow : PRow :=
  { dept := cp "PSTAT", course := cp "PSTAT 120A", avgGPA := 3, nLetterStudents := 17 }

/-- C5, witness: the amended filter guarantee on a concrete one-row
dataset. -/
theorem C5_amended_witness :
    c5prow ∈ process_pstat [c5prow]
    ∧ (0 < c5prow.avgGPA ∧ 0 < c5prow.nLetterStudents
       ∧ c5prow.dept = cp "PSTAT" ∧ get_num c5prow.course < 199) :=
  ⟨by decide, C5_amended [c5prow] c5prow (by decide)⟩

/-! Claim C6 — aggregation correctness. -/

/-- First example row: GPA 3.0, counts A=5, B=2. -/
def c6r1 : GradeRow := mkRow "FALL" 2024 3 5 2

/-- Second example row: GPA 3.6, counts A=3, B=4. -/
def c6r2 : GradeRow := mkRow "FALL" 2024 3.6 3 4

/-- Third example row: GPA 3.9, counts A=8, B=0. -/
def c6r3 : GradeRow := mkRow "FALL" 2024 3.9 8 0

/-- The expected aggregate of the three example rows: GPA 3.5, A=16, B=6. -/
def c6agg : GradeRow := mkRow "FALL" 2024 3.5 16 6

/-- C6: every aggregated row carries the arithmetic mean of its group
members' avgGpa values and the sum of each letter-grade count, where the
members are the input rows sharing its (instructor, join key, quarter,
year, course, dept) grouping key; in particular the spec's three-row
example with GPAs 3.0, 3.6, 3.9 and counts A=5/B=2, A=3/B=4, A=8/B=0
aggregates to avgGpa 3.5 with A=16 and B=6. -/
theorem C6_aggregation :
    (∀ rows : List GradeRow, ∀ g ∈ aggregateSections rows,
      g.avggpa = qmean ((rows.filter fun r => decide (groupKey r = groupKey g)).map GradeRow.avggpa)
      ∧ g.a = ((rows.filter fun r => decide (groupKey r = groupKey g)).map GradeRow.a).sum
      ∧ g.b = ((rows.filter fun r => decide (groupKey r = groupKey g)).map GradeRow.b).sum
      ∧ g.c = ((rows.filter fun r => decide (groupKey r = groupKey g)).map GradeRow.c).sum
      ∧ g.d = ((rows.filter fun r => decide (groupKey r = groupKey g)).map GradeRow.d).sum
      ∧ g.f = ((rows.filter fun r => decide (groupKey r = groupKey g)).map GradeRow.f).sum)
    ∧ aggregateSections [c6r1, c6r2, c6r3] = [c6agg] := by
  constructor
  · exact mem_aggregateSections
  · norm_num [aggregateSections, groupKeys, aggRowFor, groupKey, qmean, mkRow,
      c6r1, c6r2, c6r3, c6agg, List.dedup, List.pwFilter, GradeRow.mk.injEq, GroupKey.mk.injEq]

/-- C6, witness: the mean-and-sums law instantiated at the example rows
and their aggregate. -/
theorem C6_aggregation_witness :
    c6agg.avggpa = qmean (([c6r1, c6r2, c6r3].filter fun r =>
        decide (groupKey r = groupKey c6agg)).map GradeRow.avggpa)
    ∧ c6agg.a = (([c6r1, c6r2, c6r3].filter fun r =>
        decide (groupKey r = groupKey c6agg)).map GradeRow.a).sum
    ∧ c6agg.b = (([c6r1, c6r2, c6r3].filter fun r =>
        decide (groupKey r = groupKey c6agg)).map GradeRow.b).sum
    ∧ c6agg.c = (([c6r1, c6r2, c6r3].filter fun r =>
        decide (groupKey r = groupKey c6agg)).map GradeRow.c).sum
    ∧ c6agg.d = (([c6r1, c6r2, c6r3].filter fun r =>
        decide (groupKey r = groupKey c6agg)).map GradeRow.d).sum
    ∧ c6agg.f = (([c6r1, c6r2, c6r3].filter fun r =>
        decide (groupKey r = groupKey c6agg)).map GradeRow.f).sum :=
  C6_aggregation.1 [c6r1, c6r2, c6r3] c6agg
    (by rw [C6_aggregation.2]; exact List.mem_singleton_self _)

/-! Claim C7 — identity-key symmetry. -/

/-- C7: the grade-format key of "SOLIS J" and the rating-format key of
"JORGE SOLIS" coincide at "SOLISJ", the grade rule combining the leading
last-name token with the first character of the initial token and the
rating rule combining the final token with the initial of the first
token. -/
theorem C7_identitykey_symmetry :
    get_registrar_key (some (cp "SOLIS J")) = some (cp "SOLISJ")
    ∧ get_rmp_key (some (cp "JORGE SOLIS")) = some (cp "SOLISJ") := by
  decide

/-! Claim C8 — idempotence of text normalization. -/

/-- C8: the trim/upper-case canonicalization applied to the instructor,
quarter, course and dept columns is idempotent:
normalize (normalize s) = normalize s for every string s. -/
theorem C8_normalize_idempotent (s : List Nat) :
    normalize (normalize s) = normalize s := by
  show pyStrip (pyUpper (pyStrip (pyUpper s))) = pyStrip (pyUpper s)
  rw [(pyStrip_pyUpper_comm (pyUpper s)).symm, pyUpper_pyUpper, pyStrip_pyStrip]

/-- C8, witness: idempotence evaluated on a concrete mixed-case padded
string. -/
theorem C8_normalize_idempotent_witness :
    normalize (normalize (cp "  pstat 120a  ")) = normalize (cp "  pstat 120a  ") :=
  C8_normalize_idempotent (cp "  pstat 120a  ")

/-! Claim C9 — totality of identity-key generation on malformed names. -/

/-- C9, counterexample: an empty (or whitespace-only) instructor string is
fatal: `str(name).upper().split()` is empty and `parts[0]` raises
IndexError (embedded as the `none` result), contradicting the claimed
never-fatal degradation. -/
theorem C9_counterexample :
    get_registrar_key (some (cp "")) = none
    ∧ get_rmp_key (some (cp "")) = none
    ∧ get_registrar_key (some (cp "   ")) = none := by
  decide

/-- C9, amended: a missing (NaN) instructor name is never fatal — both key
generators return the "UNKNOWN" sentinel and the row is still processed —
and any name string containing at least one non-whitespace character never
raises; only an empty or whitespace-only name string raises IndexError. -/
theorem C9_amended (s : List Nat) (h : ∃ c ∈ s, isWs c = false) :
    (get_registrar_key (some s)).isSome = true
    ∧ (get_rmp_key (some s)).isSome = true
    ∧ get_registrar_key none = some UNKNOWN_KEY
    ∧ get_rmp_key none = some UNKNOWN_KEY := by
  have hne : pySplit (pyUpper s) ≠ [] := by
    apply pySplit_ne_nil
    rcases h with ⟨c, hc, hw⟩
    exact ⟨upperCp c, List.mem_map_of_mem upperCp hc, by rw [isWs_upperCp]; exact hw⟩
  refine ⟨?_, ?_, rfl, rfl⟩
  · cases hp : pySplit (pyUpper s) with
    | nil => exact absurd hp hne
    | cons p0 rest => simp [get_registrar_key, hp]
  · cases hp : pySplit (pyUpper s) with
    | nil => exact absurd hp hne
    | cons p0 rest => simp [get_rmp_key, hp]

/-- C9, witness: the amended totality guarantee at the concrete name
"SOLIS J". -/
theorem C9_amended_witness :
    (∃ c ∈ cp "SOLIS J", isWs c = false)
    ∧ ((get_registrar_key (some (cp "SOLIS J"))).isSome = true
       ∧ (get_rmp_key (some (cp "SOLIS J"))).isSome = true
       ∧ get_registrar_key none = some UNKNOWN_KEY
       ∧ get_rmp_key none = some UNKNOWN_KEY) :=
  ⟨by decide, C9_amended (cp "SOLIS J") (by decide)⟩

/-! Claim C10 — the shared "UNKNOWN" sentinel key for missing names. -/

/-- A grade row whose instructor cell was NaN: its normalized text column
reads "NAN" and its join key is the sentinel. -/
def c10grade : GradeRow :=
  { instructor := cp "NAN", join_key := UNKNOWN_KEY, quarter := cp "FALL",
    year := 2024, course := cp "PSTAT 120A", dept := cp "PSTAT",
    avggpa := 3, a := 1, b := 0, c := 0, d := 0, f := 0 }

/-- A rating row whose instructor cell was NaN, keyed by the sentinel. -/
def c10rmp : RmpRow :=
  { instructor_rmp := none, rmp_rating := 4, rmp_join_key := UNKNOWN_KEY }

/-- C10: both key generators map a missing (NaN) name to the same literal
"UNKNOWN", so missing-name grade rows form one identity group, and the
left merge attaches a missing-name rating row to a missing-name grade row
through that shared sentinel key. -/
theorem C10_unknown_sentinel :
    get_registrar_key none = some UNKNOWN_KEY
    ∧ get_rmp_key none = some UNKNOWN_KEY
    ∧ mergeLeft [c10grade] [c10rmp] = [⟨c10grade, some c10rmp⟩] := by
  decide

end GauchoInsights
